import Mathlib

/-!
Shallow embedding of `src/tg_api/client.py` (classes `BaseClient`,
`ValidatorClient`, `HandlerClient`): the long-poll fetch with its offset
cursor, the FIFO action queue, and the tick-driven dispatch engine.
Timestamps are naturals counting microseconds; the HTTP transport outcome is
an oracle value supplied to each call.
-/

namespace TgApi

/-- One Telegram update as far as the client logic inspects it: only the
`update_id` field is ever read (for the cursor arithmetic); the payload
variants of `objects.Update` are irrelevant to the queue and cursor logic
and are omitted. -/
structure Update where
  update_id : Int
  deriving DecidableEq, Repr

/-- A response body, as far as `get_updates` parses it: either
`resp.json()["result"]` validates as `list[Update]` with the given content,
or anything else (malformed JSON, missing key, or failed pydantic
validation). -/
inductive Body where
  | wellFormed (result : List Update)
  | malformed
  deriving DecidableEq, Repr

/-- Outcome of one `requests.Session.post` call: a response with a status
code and a body, the `None` value the source defends against with
`if response is None`, or a raised transport exception (such as
`requests.ConnectionError`), which the source does not catch. -/
inductive TransportResult where
  | resp (status : Int) (body : Body)
  | noResponse
  | raised
  deriving DecidableEq, Repr

/-- Python exceptions that can escape the client methods: a propagated
transport exception, a pydantic `ValidationError` (also covering
`JSONDecodeError` and `KeyError` from `resp.json()["result"]`), and the
`TypeError` from iterating `None`. -/
inductive PyError where
  | transportError
  | validationError
  | typeError
  deriving DecidableEq, Repr

/-- A received HTTP response object. -/
structure Resp where
  status : Int
  body : Body
  deriving DecidableEq, Repr

namespace BaseClient

/-- Embeds `BaseClient.get_updates` (client.py lines 27-50): posts to
`/getUpdates`; a raised transport exception propagates uncaught; otherwise
the method only logs (warning on `None`, error on non-200) and returns the
response object, possibly `None`, unchanged. -/
def get_updates (t : TransportResult) : Except PyError (Option Resp) :=
  match t with
  | .raised => .error .transportError
  | .noResponse => .ok none
  | .resp s b => .ok (some ⟨s, b⟩)

end BaseClient

/-- State owned by `ValidatorClient`: the `offset_autoupdate` flag and the
`_offset` cursor, initialised to `0` in `__init__`. -/
structure ValidatorState where
  offset_autoupdate : Bool
  _offset : Int
  deriving DecidableEq, Repr

/-- Embeds `TypeAdapter(list[Update]).validate_python(resp.json()["result"])`
(client.py lines 151-152): a malformed body raises, modelled as a
validation failure. -/
def parseUpdates (b : Body) : Except PyError (List Update) :=
  match b with
  | .wellFormed us => .ok us
  | .malformed => .error .validationError

/-- Python `max(u.update_id for u in updates)` on a non-empty list
(client.py line 154); the `[]` case is never reached because the source
guards with the truthiness of `updates`. -/
def maxUpdateId : List Update → Int
  | [] => 0
  | u :: r => (r.map Update.update_id).foldl max u.update_id

/-- Python truthiness dispatch `offset or self._offset` (client.py
line 148): `None` and `0` are falsy, so the internal cursor is used; any
other integer argument is used as given. -/
def effectiveOffset (offset : Option Int) (internal : Int) : Int :=
  match offset with
  | none => internal
  | some v => if v = 0 then internal else v

instance {ε α : Type} [DecidableEq ε] [DecidableEq α] : DecidableEq (Except ε α) := fun a b =>
  match a, b with
  | .ok x, .ok y =>
    if h : x = y then isTrue (congrArg Except.ok h)
    else isFalse (fun hc => h (Except.ok.inj hc))
  | .error x, .error y =>
    if h : x = y then isTrue (congrArg Except.error h)
    else isFalse (fun hc => h (Except.error.inj hc))
  | .ok _, .error _ => isFalse (fun hc => Except.noConfusion hc)
  | .error _, .ok _ => isFalse (fun hc => Except.noConfusion hc)

/-- Everything observable about one `ValidatorClient.get_updates` call: the
offset actually sent in the request parameters, the validator state
afterwards, and the returned value (`none` models Python `None`) or the
raised exception. -/
structure FetchResult where
  sentOffset : Int
  state : ValidatorState
  result : Except PyError (Option (List Update))
  deriving DecidableEq, Repr

namespace ValidatorClient

/-- Embeds `ValidatorClient.get_updates` (client.py lines 140-155): issues
the request at `offset or self._offset`; on a response with status 200 it
validates the body and, when `offset_autoupdate` holds and the batch is
non-empty, advances `_offset` to `max(update_id) + 1` before returning the
batch; on a `None` response or a non-200 status it falls through, returning
Python `None`; raised exceptions propagate with the state untouched. -/
def get_updates (s : ValidatorState) (offset : Option Int)
    (t : TransportResult) : FetchResult :=
  let sent := effectiveOffset offset s._offset
  match BaseClient.get_updates t with
  | .error e => ⟨sent, s, .error e⟩
  | .ok none => ⟨sent, s, .ok none⟩
  | .ok (some r) =>
    if r.status = 200 then
      match parseUpdates r.body with
      | .error e => ⟨sent, s, .error e⟩
      | .ok us =>
        if s.offset_autoupdate && !us.isEmpty then
          ⟨sent, { s with _offset := maxUpdateId us + 1 }, .ok (some us)⟩
        else
          ⟨sent, s, .ok (some us)⟩
    else
      ⟨sent, s, .ok none⟩

end ValidatorClient

/-- Handlers are identified abstractly; the engine never inspects them
beyond calling them. -/
abbrev HandlerId := Nat

/-- A queued action is a pair `(partial(...), callback)`; the queue logic
never inspects the payload, so actions are identified abstractly. -/
abbrev ActionId := Nat

/-- State owned by `HandlerClient` (on top of the validator state): the
minimum query delay in microseconds, the registered handlers (a Python
`set`, modelled as a duplicate-free list in some iteration order), the FIFO
action queue `_queue`, and `_last_query`, the Dispatch Clock. -/
structure HandlerState where
  validator : ValidatorState
  min_query_delay : Nat
  update_handlers : List HandlerId
  queue : List ActionId
  last_query : Nat
  deriving DecidableEq, Repr

/-- Observable steps of one tick, in execution order: an action dequeued and
run, a fetch issued (with the offset it sent), a handler invoked on an
update. -/
inductive TickEvent where
  | ranAction (a : ActionId)
  | fetched (sentOffset : Int)
  | handled (h : HandlerId) (u : Update)
  deriving DecidableEq, Repr

/-- Embeds `HandlerClient.general_handler` (client.py lines 221-224), the
nested loop `for u in updates: for h in self.update_handlers: h(u)`, as the
trace of handler invocations it performs: events outer, handlers inner. -/
def general_handler (hs : List HandlerId) : List Update → List TickEvent
  | [] => []
  | u :: r => hs.map (fun h => TickEvent.handled h u) ++ general_handler hs r

/-- Outcome of one `tick()` call: the state afterwards, the trace of work it
performed, and the exception that escaped it, if any. -/
structure TickResult where
  state : HandlerState
  trace : List TickEvent
  raised : Option PyError
  deriving DecidableEq, Repr

namespace HandlerClient

/-- Embeds `HandlerClient.tick` (client.py lines 226-235). `now` is the
value of `datetime.now()` read at entry and `tEnd` its value at the final
clock update. The throttle gate compares
`(datetime.now() - self._last_query).microseconds` — the microsecond
component `(now - last_query) % 10^6` of the elapsed timedelta, not the
total elapsed time — against `min_query_delay`, returning at once when it is
smaller. Otherwise, a non-empty `_queue` has its head popped and run
(`callback(task())`), else `super().get_updates()` runs with all-default
arguments and `general_handler` as the callback; `fetchT` is the transport
outcome consumed by the fetch branch and `aOut` the outcome of
`callback(task())` in the action branch. An exception from the unit of work
propagates, skipping the final `self._last_query = datetime.now()`. -/
def tick (s : HandlerState) (now tEnd : Nat) (fetchT : TransportResult)
    (aOut : Except PyError Unit) : TickResult :=
  if (now - s.last_query) % 1000000 < s.min_query_delay then
    ⟨s, [], none⟩
  else
    match s.queue with
    | a :: rest =>
      match aOut with
      | .error e => ⟨{ s with queue := rest }, [.ranAction a], some e⟩
      | .ok _ => ⟨{ s with queue := rest, last_query := tEnd }, [.ranAction a], none⟩
    | [] =>
      let f := ValidatorClient.get_updates s.validator none fetchT
      match f.result with
      | .error e => ⟨{ s with validator := f.state }, [.fetched f.sentOffset], some e⟩
      | .ok none =>
        ⟨{ s with validator := f.state }, [.fetched f.sentOffset], some .typeError⟩
      | .ok (some us) =>
        ⟨{ s with validator := f.state, last_query := tEnd },
          .fetched f.sentOffset :: general_handler s.update_handlers us, none⟩

/-- Embeds `HandlerClient.send_message` (client.py lines 237-259): appends
the pair of the bound call and its callback to the tail of `self._queue`;
the captured payload is abstracted to the action's identity, which is all
the queue logic inspects. `edit_message_text` and
`edit_message_reply_markup` (lines 261-301) append identically. -/
def send_message (s : HandlerState) (a : ActionId) : HandlerState :=
  { s with queue := s.queue ++ [a] }

end HandlerClient

/-- One scheduled tick invocation: the two clock readings and the oracle
outcomes for whichever unit of work runs. -/
structure TickInput where
  now : Nat
  tEnd : Nat
  fetchT : TransportResult
  aOut : Except PyError Unit

/-- Run a sequence of tick invocations, threading the state and
concatenating the traces. -/
def runTicks : HandlerState → List TickInput → HandlerState × List TickEvent
  | s, [] => (s, [])
  | s, i :: rest =>
    let r := HandlerClient.tick s i.now i.tEnd i.fetchT i.aOut
    let p := runTicks r.state rest
    (p.1, r.trace ++ p.2)

/-- The throttle gate of `tick` passes: the microsecond component of the
elapsed timedelta is not below `min_query_delay`. -/
def gatePasses (s : HandlerState) (now : Nat) : Bool :=
  !decide ((now - s.last_query) % 1000000 < s.min_query_delay)

/-- Every invocation in the schedule passes the throttle gate in the state
it actually encounters. -/
def allPass : HandlerState → List TickInput → Bool
  | _, [] => true
  | s, i :: rest =>
    gatePasses s i.now &&
      allPass (HandlerClient.tick s i.now i.tEnd i.fetchT i.aOut).state rest

/-- The action identities executed in a trace, in order. -/
def actionsRun (tr : List TickEvent) : List ActionId :=
  tr.filterMap (fun e => match e with | .ranAction a => some a | _ => none)

/-- The updates with which handler `h` is invoked in a trace, in order. -/
def invocationsOf (h : HandlerId) (tr : List TickEvent) : List Update :=
  tr.filterMap (fun e =>
    match e with
    | .handled h1 u => if h1 = h then some u else none
    | _ => none)

/-- The batch-shape invariant from the data model: update ids strictly
ascending along the list. -/
def sortedAsc : List Update → Bool
  | [] => true
  | [_] => true
  | a :: b :: r => decide (a.update_id < b.update_id) && sortedAsc (b :: r)

/-- The batch a transport outcome would deliver to a successful parse;
empty for every failing outcome. -/
def updatesOf : TransportResult → List Update
  | .resp _ (.wellFormed us) => us
  | _ => []

/-- Heap of Python `set` objects holding registered handlers; a set object
is identified by its index. Index 0 is the single default set created once,
when `HandlerClient.__init__` is defined, by the default argument
`update_handlers: set[Callable[[objects.Update], None]] = set()`
(client.py line 213). -/
structure PyWorld where
  sets : List (List HandlerId)
  deriving DecidableEq, Repr

/-- The heap right after the module is imported: only the default-argument
set exists, and it is empty. -/
def importedWorld : PyWorld := ⟨[[]]⟩

/-- An engine instance as far as handler and queue ownership goes: the
reference to its handler-set object, and its queue, which `__init__` always
builds fresh with `self._queue = []` (client.py line 218). -/
structure HCInstance where
  handlersRef : Nat
  queue : List ActionId
  deriving DecidableEq, Repr

/-- Embeds constructing `HandlerClient()` without passing `update_handlers`:
Python evaluates a default argument once, at function definition time, so
the instance binds the pre-existing default set object at index 0 rather
than a fresh one. -/
def mkDefaultInstance : HCInstance := ⟨0, []⟩

/-- Embeds constructing `HandlerClient(update_handlers=set())` with an
explicitly passed fresh set: a new set object is allocated on the heap. -/
def mkFreshInstance (w : PyWorld) : PyWorld × HCInstance :=
  (⟨w.sets ++ [[]]⟩, ⟨w.sets.length, []⟩)

/-- Registering a handler (`client.update_handlers.add(h)`) mutates the set
object the instance references. -/
def registerHandler (w : PyWorld) (c : HCInstance) (h : HandlerId) : PyWorld :=
  ⟨w.sets.set c.handlersRef (w.sets.getD c.handlersRef [] ++ [h])⟩

/-- The handlers an instance observes through its reference. -/
def observedHandlers (w : PyWorld) (c : HCInstance) : List HandlerId :=
  w.sets.getD c.handlersRef []

theorem get_updates_raised (s : ValidatorState) (o : Option Int) :
    ValidatorClient.get_updates s o .raised =
      ⟨effectiveOffset o s._offset, s, .error .transportError⟩ := rfl

theorem get_updates_noResponse (s : ValidatorState) (o : Option Int) :
    ValidatorClient.get_updates s o .noResponse =
      ⟨effectiveOffset o s._offset, s, .ok none⟩ := rfl

theorem get_updates_resp200_wf (s : ValidatorState) (o : Option Int) (us : List Update) :
    ValidatorClient.get_updates s o (.resp 200 (.wellFormed us)) =
      ⟨effectiveOffset o s._offset,
        if s.offset_autoupdate && !us.isEmpty then
          { s with _offset := maxUpdateId us + 1 }
        else s,
        .ok (some us)⟩ := by
  by_cases hcond : (s.offset_autoupdate && !us.isEmpty) = true
  · simp [ValidatorClient.get_updates, BaseClient.get_updates, parseUpdates, hcond]
  · simp [ValidatorClient.get_updates, BaseClient.get_updates, parseUpdates, hcond]

theorem get_updates_resp200_malformed (s : ValidatorState) (o : Option Int) :
    ValidatorClient.get_updates s o (.resp 200 .malformed) =
      ⟨effectiveOffset o s._offset, s, .error .validationError⟩ := by
  simp [ValidatorClient.get_updates, BaseClient.get_updates, parseUpdates]

theorem get_updates_non200 (s : ValidatorState) (o : Option Int) (st : Int) (b : Body)
    (hst : ¬st = 200) :
    ValidatorClient.get_updates s o (.resp st b) =
      ⟨effectiveOffset o s._offset, s, .ok none⟩ := by
  simp only [ValidatorClient.get_updates, BaseClient.get_updates, if_neg hst]

theorem sentOffset_eq (s : ValidatorState) (o : Option Int) (t : TransportResult) :
    (ValidatorClient.get_updates s o t).sentOffset = effectiveOffset o s._offset := by
  cases t with
  | raised => rfl
  | noResponse => rfl
  | resp st b =>
    by_cases hst : st = 200
    · subst hst
      cases b with
      | malformed => rw [get_updates_resp200_malformed]
      | wellFormed us => rw [get_updates_resp200_wf]
    · rw [get_updates_non200 s o st b hst]

theorem get_updates_ok_some (s : ValidatorState) (o : Option Int) (t : TransportResult)
    (us : List Update)
    (h : (ValidatorClient.get_updates s o t).result = .ok (some us)) :
    t = .resp 200 (.wellFormed us) := by
  cases t with
  | raised => rw [get_updates_raised] at h; cases h
  | noResponse => rw [get_updates_noResponse] at h; simp at h
  | resp st b =>
    by_cases hst : st = 200
    · subst hst
      cases b with
      | malformed => rw [get_updates_resp200_malformed] at h; cases h
      | wellFormed vs =>
        rw [get_updates_resp200_wf] at h
        have : vs = us := Option.some.inj (Except.ok.inj h)
        rw [this]
    · rw [get_updates_non200 s o st b hst] at h
      simp at h

theorem le_foldl_max (l : List Int) (x : Int) : x ≤ l.foldl max x := by
  induction l generalizing x with
  | nil => exact le_refl x
  | cons a r ih =>
    rw [List.foldl_cons]
    exact le_trans (le_max_left x a) (ih (max x a))

theorem mem_le_foldl_max (l : List Int) (x y : Int) (h : y ∈ l) : y ≤ l.foldl max x := by
  induction l generalizing x with
  | nil => cases h
  | cons a r ih =>
    rw [List.foldl_cons]
    rcases List.mem_cons.mp h with h1 | h1
    · subst h1
      exact le_trans (le_max_right x y) (le_foldl_max r (max x y))
    · exact ih (max x a) h1

theorem le_maxUpdateId (us : List Update) (u : Update) (h : u ∈ us) :
    u.update_id ≤ maxUpdateId us := by
  cases us with
  | nil => cases h
  | cons v r =>
    show u.update_id ≤ (r.map Update.update_id).foldl max v.update_id
    rcases List.mem_cons.mp h with h1 | h1
    · subst h1
      exact le_foldl_max _ _
    · exact mem_le_foldl_max _ _ _ (List.mem_map_of_mem Update.update_id h1)

theorem maxUpdateId_cons2 (u v : Update) (r : List Update)
    (h : u.update_id ≤ v.update_id) :
    maxUpdateId (u :: v :: r) = maxUpdateId (v :: r) := by
  show (List.map Update.update_id (v :: r)).foldl max u.update_id =
    (List.map Update.update_id r).foldl max v.update_id
  rw [List.map_cons, List.foldl_cons, max_eq_right h]

theorem maxUpdateId_sorted (us : List Update) (hs : sortedAsc us = true) (hne : us ≠ []) :
    maxUpdateId us = (us.getLast hne).update_id := by
  induction us with
  | nil => exact absurd rfl hne
  | cons u r ih =>
    cases r with
    | nil => rfl
    | cons v r2 =>
      have h1 : u.update_id < v.update_id ∧ sortedAsc (v :: r2) = true := by
        simpa [sortedAsc] using hs
      have hgl : (u :: v :: r2).getLast hne = (v :: r2).getLast (List.cons_ne_nil v r2) :=
        List.getLast_cons (List.cons_ne_nil v r2)
      rw [maxUpdateId_cons2 u v r2 (le_of_lt h1.1), ih h1.2 (List.cons_ne_nil v r2), hgl]

/-- Claim C10: calling `get_updates` with an explicit offset argument of `0`
uses the internally stored cursor (Python `offset or self._offset` treats
`0` as falsy, like `None`); a non-zero, non-`None` argument is sent as
given. -/
theorem c10_zero_offset_argument_ignored (s : ValidatorState) (t : TransportResult) (v : Int) :
    (ValidatorClient.get_updates s (some 0) t).sentOffset = s._offset ∧
    (ValidatorClient.get_updates s none t).sentOffset = s._offset ∧
    (v ≠ 0 → (ValidatorClient.get_updates s (some v) t).sentOffset = v) := by
  refine ⟨?_, ?_, fun hv => ?_⟩
  · rw [sentOffset_eq]; rfl
  · rw [sentOffset_eq]; rfl
  · rw [sentOffset_eq]; simp [effectiveOffset, hv]

/-- Claim C10, witness at a concrete state, transport outcome and non-zero
argument. -/
theorem c10_zero_offset_argument_ignored_witness :
    (ValidatorClient.get_updates ⟨true, 7⟩ (some 0) .raised).sentOffset = 7 ∧
    (ValidatorClient.get_updates ⟨true, 7⟩ none .raised).sentOffset = 7 ∧
    (ValidatorClient.get_updates ⟨true, 7⟩ (some 5) .raised).sentOffset = 5 :=
  ⟨(c10_zero_offset_argument_ignored ⟨true, 7⟩ .raised 5).1,
   (c10_zero_offset_argument_ignored ⟨true, 7⟩ .raised 5).2.1,
   (c10_zero_offset_argument_ignored ⟨true, 7⟩ .raised 5).2.2 (by decide)⟩

/-- Claim C3 (amended): with offset auto-update enabled — the default, but
disabled the cursor never moves — a successful fetch returning events
E1..Ek (k > 0) sorted ascending by event id leaves the cursor at
`Ek.event_id + 1`, and a successful fetch returning zero events leaves it
unchanged. -/
theorem c3_cursor_after_fetch (s : ValidatorState) (o : Option Int) (t : TransportResult)
    (us : List Update) (hauto : s.offset_autoupdate = true)
    (hok : (ValidatorClient.get_updates s o t).result = .ok (some us)) :
    (∀ hne : us ≠ [], sortedAsc us = true →
      (ValidatorClient.get_updates s o t).state._offset = (us.getLast hne).update_id + 1) ∧
    (us = [] → (ValidatorClient.get_updates s o t).state._offset = s._offset) := by
  have ht := get_updates_ok_some s o t us hok
  subst ht
  rw [get_updates_resp200_wf]
  constructor
  · intro hne hsorted
    have hne2 : us.isEmpty = false := by
      cases us with
      | nil => exact absurd rfl hne
      | cons a l => rfl
    simp [hauto, hne2, maxUpdateId_sorted us hsorted hne]
  · intro h
    subst h
    simp

/-- Claim C3 (amended), witness: cursor 3, fetch returns ids [5, 6, 9],
cursor afterwards is 10; and a successful empty fetch leaves cursor 3. -/
theorem c3_cursor_after_fetch_witness :
    (ValidatorClient.get_updates ⟨true, 3⟩ none
      (.resp 200 (.wellFormed [⟨5⟩, ⟨6⟩, ⟨9⟩]))).state._offset = 9 + 1 ∧
    (ValidatorClient.get_updates ⟨true, 3⟩ none
      (.resp 200 (.wellFormed []))).state._offset = 3 :=
  ⟨(c3_cursor_after_fetch ⟨true, 3⟩ none (.resp 200 (.wellFormed [⟨5⟩, ⟨6⟩, ⟨9⟩]))
      [⟨5⟩, ⟨6⟩, ⟨9⟩] rfl (by decide)).1 (by decide) (by decide),
   (c3_cursor_after_fetch ⟨true, 3⟩ none (.resp 200 (.wellFormed []))
      [] rfl (by decide)).2 rfl⟩

/-- Claim C6 (amended): the cursor never decreases provided every event in
the returned batch has an event id at least the current cursor (which the
long-poll server guarantees for a request issued at that cursor); without
that proviso the code sets the cursor to `max(batch) + 1` even when that is
smaller. -/
theorem c6_cursor_monotone (s : ValidatorState) (o : Option Int) (t : TransportResult)
    (h : ∀ u ∈ updatesOf t, s._offset ≤ u.update_id) :
    s._offset ≤ (ValidatorClient.get_updates s o t).state._offset := by
  cases t with
  | raised => rw [get_updates_raised]
  | noResponse => rw [get_updates_noResponse]
  | resp st b =>
    by_cases hst : st = 200
    · subst hst
      cases b with
      | malformed => rw [get_updates_resp200_malformed]
      | wellFormed us =>
        rw [get_updates_resp200_wf]
        by_cases hcond : (s.offset_autoupdate && !us.isEmpty) = true
        · rw [if_pos hcond]
          cases us with
          | nil => simp at hcond
          | cons u r =>
            have h1 : s._offset ≤ u.update_id := h u (by simp [updatesOf])
            have h2 : u.update_id ≤ maxUpdateId (u :: r) := le_maxUpdateId _ u (by simp)
            have : maxUpdateId (u :: r) ≤ maxUpdateId (u :: r) + 1 := by omega
            exact le_trans (le_trans h1 h2) this
        · rw [if_neg hcond]
    · rw [get_updates_non200 s o st b hst]

/-- Claim C6 (amended), witness: cursor 3, batch with ids [5, 6, 9] (all at
least 3), cursor afterwards is 10 which is at least 3. -/
theorem c6_cursor_monotone_witness :
    (3 : Int) ≤ (ValidatorClient.get_updates ⟨true, 3⟩ none
      (.resp 200 (.wellFormed [⟨5⟩, ⟨6⟩, ⟨9⟩]))).state._offset :=
  c6_cursor_monotone ⟨true, 3⟩ none (.resp 200 (.wellFormed [⟨5⟩, ⟨6⟩, ⟨9⟩]))
    (by decide)

/-- Claim C7 (amended): `get_updates` fails with the propagated transport
exception on transport failure and with `ValidationError` on a malformed
body of a 200 response; in either failure case the cursor is not advanced;
and it returns an event sequence only for a transport success with status
200 and a well-formed body. -/
theorem c7_fetch_failure_modes (s : ValidatorState) (o : Option Int) (t : TransportResult)
    (us : List Update) :
    (ValidatorClient.get_updates s o .raised).result = .error .transportError ∧
    (ValidatorClient.get_updates s o .raised).state._offset = s._offset ∧
    (ValidatorClient.get_updates s o (.resp 200 .malformed)).result = .error .validationError ∧
    (ValidatorClient.get_updates s o (.resp 200 .malformed)).state._offset = s._offset ∧
    ((ValidatorClient.get_updates s o t).result = .ok (some us) →
      t = .resp 200 (.wellFormed us)) := by
  refine ⟨?_, ?_, ?_, ?_, get_updates_ok_some s o t us⟩
  · rw [get_updates_raised]
  · rw [get_updates_raised]
  · rw [get_updates_resp200_malformed]
  · rw [get_updates_resp200_malformed]

/-- Claim C7 (amended), witness at a concrete cursor and a concrete
successful fetch. -/
theorem c7_fetch_failure_modes_witness :
    (ValidatorClient.get_updates ⟨true, 3⟩ none .raised).result = .error .transportError ∧
    TransportResult.resp 200 (.wellFormed [⟨5⟩]) = .resp 200 (.wellFormed [⟨5⟩]) :=
  ⟨(c7_fetch_failure_modes ⟨true, 3⟩ none (.resp 200 (.wellFormed [⟨5⟩])) [⟨5⟩]).1,
   (c7_fetch_failure_modes ⟨true, 3⟩ none (.resp 200 (.wellFormed [⟨5⟩])) [⟨5⟩]).2.2.2.2
     (by decide)⟩

theorem gate_open (s : HandlerState) (now : Nat) (hg : gatePasses s now = true) :
    ¬((now - s.last_query) % 1000000 < s.min_query_delay) := by
  simpa [gatePasses] using hg

theorem tick_throttled (s : HandlerState) (now tEnd : Nat) (ft : TransportResult)
    (ao : Except PyError Unit) (h : gatePasses s now = false) :
    HandlerClient.tick s now tEnd ft ao = ⟨s, [], none⟩ := by
  have h2 : (now - s.last_query) % 1000000 < s.min_query_delay := by
    simpa [gatePasses] using h
  simp [HandlerClient.tick, h2]

theorem tick_action_error (s : HandlerState) (now tEnd : Nat) (ft : TransportResult)
    (e : PyError) (a : ActionId) (q : List ActionId)
    (hg : gatePasses s now = true) (hq : s.queue = a :: q) :
    HandlerClient.tick s now tEnd ft (.error e) =
      ⟨{ s with queue := q }, [.ranAction a], some e⟩ := by
  simp [HandlerClient.tick, gate_open s now hg, hq]

theorem tick_action_ok (s : HandlerState) (now tEnd : Nat) (ft : TransportResult)
    (a : ActionId) (q : List ActionId)
    (hg : gatePasses s now = true) (hq : s.queue = a :: q) :
    HandlerClient.tick s now tEnd ft (.ok ()) =
      ⟨{ s with queue := q, last_query := tEnd }, [.ranAction a], none⟩ := by
  simp [HandlerClient.tick, gate_open s now hg, hq]

theorem tick_fetch_raised (s : HandlerState) (now tEnd : Nat) (ao : Except PyError Unit)
    (hg : gatePasses s now = true) (hq : s.queue = []) :
    HandlerClient.tick s now tEnd .raised ao =
      ⟨s, [.fetched s.validator._offset], some .transportError⟩ := by
  simp [HandlerClient.tick, gate_open s now hg, hq, get_updates_raised, effectiveOffset]
  rw [← hq]

theorem tick_fetch_noResponse (s : HandlerState) (now tEnd : Nat) (ao : Except PyError Unit)
    (hg : gatePasses s now = true) (hq : s.queue = []) :
    HandlerClient.tick s now tEnd .noResponse ao =
      ⟨s, [.fetched s.validator._offset], some .typeError⟩ := by
  simp [HandlerClient.tick, gate_open s now hg, hq, get_updates_noResponse, effectiveOffset]
  rw [← hq]

theorem tick_fetch_malformed (s : HandlerState) (now tEnd : Nat) (ao : Except PyError Unit)
    (hg : gatePasses s now = true) (hq : s.queue = []) :
    HandlerClient.tick s now tEnd (.resp 200 .malformed) ao =
      ⟨s, [.fetched s.validator._offset], some .validationError⟩ := by
  simp [HandlerClient.tick, gate_open s now hg, hq, get_updates_resp200_malformed,
    effectiveOffset]
  rw [← hq]

theorem tick_fetch_non200 (s : HandlerState) (now tEnd : Nat) (st : Int) (b : Body)
    (ao : Except PyError Unit) (hst : ¬st = 200)
    (hg : gatePasses s now = true) (hq : s.queue = []) :
    HandlerClient.tick s now tEnd (.resp st b) ao =
      ⟨s, [.fetched s.validator._offset], some .typeError⟩ := by
  simp [HandlerClient.tick, gate_open s now hg, hq, get_updates_non200 _ _ _ _ hst,
    effectiveOffset]
  rw [← hq]

theorem tick_fetch_success (s : HandlerState) (now tEnd : Nat) (us : List Update)
    (ao : Except PyError Unit) (hg : gatePasses s now = true) (hq : s.queue = []) :
    HandlerClient.tick s now tEnd (.resp 200 (.wellFormed us)) ao =
      ⟨{ s with
          validator :=
            (ValidatorClient.get_updates s.validator none (.resp 200 (.wellFormed us))).state,
          last_query := tEnd },
        .fetched s.validator._offset :: general_handler s.update_handlers us, none⟩ := by
  simp [HandlerClient.tick, gate_open s now hg, hq, get_updates_resp200_wf, effectiveOffset]

theorem tick_preserves_delay (s : HandlerState) (now tEnd : Nat) (ft : TransportResult)
    (ao : Except PyError Unit) :
    (HandlerClient.tick s now tEnd ft ao).state.min_query_delay = s.min_query_delay := by
  cases hgb : gatePasses s now with
  | false => rw [tick_throttled s now tEnd ft ao hgb]
  | true =>
    cases hq : s.queue with
    | cons a q =>
      cases ao with
      | error e => rw [tick_action_error s now tEnd ft e a q hgb hq]
      | ok u => cases u; rw [tick_action_ok s now tEnd ft a q hgb hq]
    | nil =>
      cases ft with
      | raised => rw [tick_fetch_raised s now tEnd ao hgb hq]
      | noResponse => rw [tick_fetch_noResponse s now tEnd ao hgb hq]
      | resp st b =>
        by_cases hst : st = 200
        · subst hst
          cases b with
          | malformed => rw [tick_fetch_malformed s now tEnd ao hgb hq]
          | wellFormed us => rw [tick_fetch_success s now tEnd us ao hgb hq]
        · rw [tick_fetch_non200 s now tEnd st b ao hst hgb hq]

theorem tick_clock_on_success (s : HandlerState) (now tEnd : Nat) (ft : TransportResult)
    (ao : Except PyError Unit) (hg : gatePasses s now = true)
    (hok : (HandlerClient.tick s now tEnd ft ao).raised = none) :
    (HandlerClient.tick s now tEnd ft ao).state.last_query = tEnd := by
  cases hq : s.queue with
  | cons a q =>
    cases ao with
    | error e =>
      rw [tick_action_error s now tEnd ft e a q hg hq] at hok
      cases hok
    | ok u =>
      cases u
      rw [tick_action_ok s now tEnd ft a q hg hq]
  | nil =>
    cases ft with
    | raised => rw [tick_fetch_raised s now tEnd ao hg hq] at hok; cases hok
    | noResponse => rw [tick_fetch_noResponse s now tEnd ao hg hq] at hok; cases hok
    | resp st b =>
      by_cases hst : st = 200
      · subst hst
        cases b with
        | malformed => rw [tick_fetch_malformed s now tEnd ao hg hq] at hok; cases hok
        | wellFormed us => rw [tick_fetch_success s now tEnd us ao hg hq]
      · rw [tick_fetch_non200 s now tEnd st b ao hst hg hq] at hok
        cases hok

theorem queue_after_enqueues (s : HandlerState) (acts : List ActionId) :
    (acts.foldl HandlerClient.send_message s).queue = s.queue ++ acts := by
  induction acts generalizing s with
  | nil => simp
  | cons a r ih =>
    rw [List.foldl_cons, ih]
    simp [HandlerClient.send_message]

theorem actionsRun_append (tr1 tr2 : List TickEvent) :
    actionsRun (tr1 ++ tr2) = actionsRun tr1 ++ actionsRun tr2 := by
  simp [actionsRun, List.filterMap_append]

theorem runTicks_fifo (sched : List TickInput) (s : HandlerState)
    (hlen : sched.length = s.queue.length)
    (hpass : allPass s sched = true) :
    actionsRun (runTicks s sched).2 = s.queue := by
  induction sched generalizing s with
  | nil =>
    have hq : s.queue = [] := by
      cases hq : s.queue with
      | nil => rfl
      | cons a q => rw [hq] at hlen; cases hlen
    simp [runTicks, actionsRun, hq]
  | cons i rest ih =>
    obtain ⟨a, q, hq⟩ : ∃ a q, s.queue = a :: q := by
      cases hq : s.queue with
      | nil => rw [hq] at hlen; cases hlen
      | cons a q => exact ⟨a, q, rfl⟩
    have hp : gatePasses s i.now = true ∧
        allPass (HandlerClient.tick s i.now i.tEnd i.fetchT i.aOut).state rest = true := by
      simpa [allPass] using hpass
    have htr : (HandlerClient.tick s i.now i.tEnd i.fetchT i.aOut).trace = [.ranAction a] ∧
        (HandlerClient.tick s i.now i.tEnd i.fetchT i.aOut).state.queue = q := by
      cases hao : i.aOut with
      | error e =>
        rw [tick_action_error s i.now i.tEnd i.fetchT e a q hp.1 hq]
        exact ⟨rfl, rfl⟩
      | ok u =>
        cases u
        rw [tick_action_ok s i.now i.tEnd i.fetchT a q hp.1 hq]
        exact ⟨rfl, rfl⟩
    have hlen2 : rest.length = (HandlerClient.tick s i.now i.tEnd i.fetchT i.aOut).state.queue.length := by
      rw [htr.2]
      rw [hq] at hlen
      exact Nat.succ.inj hlen
    show actionsRun ((HandlerClient.tick s i.now i.tEnd i.fetchT i.aOut).trace ++
        (runTicks (HandlerClient.tick s i.now i.tEnd i.fetchT i.aOut).state rest).2) = s.queue
    rw [actionsRun_append, htr.1, ih _ hlen2 hp.2, htr.2, hq]
    rfl

/-- Claim C2: actions enqueued through the scheduling operations are
dequeued and executed by ticks in exactly their insertion order — strict
FIFO, with no reordering — whenever each tick passes the throttle gate,
whether or not the individual actions succeed. -/
theorem c2_fifo_order (s : HandlerState) (acts : List ActionId) (sched : List TickInput)
    (hq : s.queue = [])
    (hlen : sched.length = acts.length)
    (hpass : allPass (acts.foldl HandlerClient.send_message s) sched = true) :
    actionsRun (runTicks (acts.foldl HandlerClient.send_message s) sched).2 = acts := by
  have hq2 : (acts.foldl HandlerClient.send_message s).queue = acts := by
    rw [queue_after_enqueues, hq]
    rfl
  rw [runTicks_fifo sched _ (by rw [hq2]; exact hlen) hpass, hq2]

/-- Claim C2, witness: actions 1 and 2 enqueued in that order are executed
in that order by two gate-passing ticks. -/
theorem c2_fifo_order_witness :
    actionsRun (runTicks (([1, 2] : List ActionId).foldl HandlerClient.send_message
      ⟨⟨true, 0⟩, 0, [], [], 0⟩)
      [⟨10, 11, .raised, .ok ()⟩, ⟨20, 21, .raised, .ok ()⟩]).2 = [1, 2] :=
  c2_fifo_order ⟨⟨true, 0⟩, 0, [], [], 0⟩ [1, 2]
    [⟨10, 11, .raised, .ok ()⟩, ⟨20, 21, .raised, .ok ()⟩] rfl rfl (by decide)

/-- Claim C4 (amended): when the unit of work of a gate-passing tick fails —
the fetch's transport call raises or its body fails validation, or the
action's execution raises — the exception propagates out of `tick()`, the
cursor is unchanged, and the Dispatch Clock is NOT updated: the final
clock assignment runs only after a unit of work that did not raise. -/
theorem c4_failure_propagates (s : HandlerState) (now tEnd : Nat)
    (ft : TransportResult) (ao : Except PyError Unit)
    (hg : gatePasses s now = true)
    (hfail : (s.queue = [] ∧ (ft = .raised ∨ ft = .resp 200 .malformed)) ∨
      (s.queue ≠ [] ∧ ∃ e, ao = .error e)) :
    (∃ e, (HandlerClient.tick s now tEnd ft ao).raised = some e) ∧
    (HandlerClient.tick s now tEnd ft ao).state.validator._offset = s.validator._offset ∧
    (HandlerClient.tick s now tEnd ft ao).state.last_query = s.last_query := by
  rcases hfail with ⟨hq, hft | hft⟩ | ⟨hq, e, hao⟩
  · subst hft
    rw [tick_fetch_raised s now tEnd ao hg hq]
    exact ⟨⟨.transportError, rfl⟩, rfl, rfl⟩
  · subst hft
    rw [tick_fetch_malformed s now tEnd ao hg hq]
    exact ⟨⟨.validationError, rfl⟩, rfl, rfl⟩
  · obtain ⟨a, q, hq2⟩ : ∃ a q, s.queue = a :: q := by
      cases hqq : s.queue with
      | nil => exact absurd hqq hq
      | cons a q => exact ⟨a, q, rfl⟩
    subst hao
    rw [tick_action_error s now tEnd ft e a q hg hq2]
    exact ⟨⟨e, rfl⟩, rfl, rfl⟩

/-- Claim C4 (amended), witness: a gate-passing tick whose fetch hits a
transport failure raises, keeps the cursor at 3 and keeps the Dispatch
Clock at 5. -/
theorem c4_failure_propagates_witness :
    (∃ e, (HandlerClient.tick ⟨⟨true, 3⟩, 0, [], [], 5⟩ 100 200 .raised (.ok ())).raised =
      some e) ∧
    (HandlerClient.tick ⟨⟨true, 3⟩, 0, [], [], 5⟩ 100 200 .raised
      (.ok ())).state.validator._offset = 3 ∧
    (HandlerClient.tick ⟨⟨true, 3⟩, 0, [], [], 5⟩ 100 200 .raised
      (.ok ())).state.last_query = 5 :=
  c4_failure_propagates ⟨⟨true, 3⟩, 0, [], [], 5⟩ 100 200 .raised (.ok ())
    (by decide) (.inl ⟨rfl, .inl rfl⟩)

/-- Claim C5 (amended): a throttled tick returns immediately with no side
effect at all (queue, cursor and Dispatch Clock unchanged, no transport
call, nothing raised); and across two tick invocations separated by less
than `min_query_delay` — the first reading the clock at `t1` and writing it
at `t1End ≤ t2` — at most one unit of work is executed PROVIDED the first
tick does not raise; a raising unit of work skips the clock update, which
is what the counterexample exploits. -/
theorem c5_at_most_one_unit (s : HandlerState) (t1 t1End t2 t2End : Nat)
    (ft1 ft2 : TransportResult) (ao1 ao2 : Except PyError Unit)
    (h1 : t1 ≤ t1End) (h2 : t1End ≤ t2) (hsep : t2 - t1 < s.min_query_delay) :
    (gatePasses s t1 = false →
      HandlerClient.tick s t1 t1End ft1 ao1 = ⟨s, [], none⟩) ∧
    ((HandlerClient.tick s t1 t1End ft1 ao1).raised = none →
      (HandlerClient.tick s t1 t1End ft1 ao1).trace = [] ∨
      (HandlerClient.tick (HandlerClient.tick s t1 t1End ft1 ao1).state
        t2 t2End ft2 ao2).trace = []) := by
  constructor
  · exact tick_throttled s t1 t1End ft1 ao1
  · intro hok
    cases hgb : gatePasses s t1 with
    | false =>
      left
      rw [tick_throttled s t1 t1End ft1 ao1 hgb]
    | true =>
      right
      have hclock : (HandlerClient.tick s t1 t1End ft1 ao1).state.last_query = t1End :=
        tick_clock_on_success s t1 t1End ft1 ao1 hgb hok
      have hdelay : (HandlerClient.tick s t1 t1End ft1 ao1).state.min_query_delay =
          s.min_query_delay := tick_preserves_delay s t1 t1End ft1 ao1
      have hgate2 : gatePasses (HandlerClient.tick s t1 t1End ft1 ao1).state t2 = false := by
        have ha : t2 - t1End ≤ t2 - t1 := Nat.sub_le_sub_left h1 t2
        have hm : (t2 - t1End) % 1000000 ≤ t2 - t1End := Nat.mod_le _ _
        have hlt : (t2 - t1End) % 1000000 < s.min_query_delay := by omega
        unfold gatePasses
        rw [hclock, hdelay]
        simp [hlt]
      rw [tick_throttled _ t2 t2End ft2 ao2 hgate2]

/-- Claim C5 (amended), witness: first tick at t = 60000 fetches
successfully (clock written at 60005), second tick at t = 60010 within the
50000 µs delay executes nothing. -/
theorem c5_at_most_one_unit_witness :
    (HandlerClient.tick ⟨⟨true, 0⟩, 50000, [], [], 0⟩ 60000 60005
      (.resp 200 (.wellFormed [])) (.ok ())).trace = [] ∨
    (HandlerClient.tick
      (HandlerClient.tick ⟨⟨true, 0⟩, 50000, [], [], 0⟩ 60000 60005
        (.resp 200 (.wellFormed [])) (.ok ())).state
      60010 60015 (.resp 200 (.wellFormed [])) (.ok ())).trace = [] :=
  (c5_at_most_one_unit ⟨⟨true, 0⟩, 50000, [], [], 0⟩ 60000 60005 60010 60015
    (.resp 200 (.wellFormed [])) (.resp 200 (.wellFormed [])) (.ok ()) (.ok ())
    (by decide) (by decide) (by decide)).2 (by decide)

theorem invocationsOf_cons_handled (x : HandlerId) (u : Update) (h : HandlerId)
    (tr : List TickEvent) :
    invocationsOf h (TickEvent.handled x u :: tr) =
      (if x = h then [u] else []) ++ invocationsOf h tr := by
  by_cases hx : x = h
  · simp [invocationsOf, List.filterMap_cons, hx]
  · simp [invocationsOf, List.filterMap_cons, hx]

theorem invocationsOf_append (h : HandlerId) (tr1 tr2 : List TickEvent) :
    invocationsOf h (tr1 ++ tr2) = invocationsOf h tr1 ++ invocationsOf h tr2 := by
  simp [invocationsOf, List.filterMap_append]

theorem invocationsOf_handled_batch (r : List HandlerId) (u : Update) (h : HandlerId)
    (hnd : r.Nodup) :
    invocationsOf h (r.map (fun h1 => TickEvent.handled h1 u)) =
      if h ∈ r then [u] else [] := by
  induction r with
  | nil => simp [invocationsOf]
  | cons x r2 ih =>
    rw [List.map_cons, invocationsOf_cons_handled]
    rcases List.nodup_cons.mp hnd with ⟨hx, hnd2⟩
    by_cases hxh : x = h
    · subst hxh
      simp [ih hnd2, hx]
    · have hxh2 : ¬(h = x) := fun he => hxh he.symm
      simp [hxh, hxh2, ih hnd2, List.mem_cons]

theorem invocationsOf_general_handler (hs : List HandlerId) (us : List Update)
    (h : HandlerId) (hmem : h ∈ hs) (hnd : hs.Nodup) :
    invocationsOf h (general_handler hs us) = us := by
  induction us with
  | nil => rfl
  | cons u r ih =>
    show invocationsOf h
      (hs.map (fun h1 => TickEvent.handled h1 u) ++ general_handler hs r) = u :: r
    rw [invocationsOf_append, invocationsOf_handled_batch hs u h hnd, if_pos hmem, ih]
    rfl

/-- Claim C8: a gate-passing tick with an empty queue whose fetch succeeds
with batch `us` invokes every registered handler once per fetched event, in
batch order (hence ascending event order, the batch being sorted), `|us|`
times in total; with an empty batch no handler is invoked and the trace is
just the fetch itself. -/
theorem c8_handler_fanout (s : HandlerState) (now tEnd : Nat) (us : List Update)
    (h : HandlerId) (ao : Except PyError Unit)
    (hg : gatePasses s now = true) (hq : s.queue = [])
    (hmem : h ∈ s.update_handlers) (hnd : s.update_handlers.Nodup) :
    invocationsOf h
      (HandlerClient.tick s now tEnd (.resp 200 (.wellFormed us)) ao).trace = us ∧
    (invocationsOf h
      (HandlerClient.tick s now tEnd (.resp 200 (.wellFormed us)) ao).trace).length =
      us.length ∧
    (us = [] →
      (HandlerClient.tick s now tEnd (.resp 200 (.wellFormed us)) ao).trace =
        [.fetched s.validator._offset]) := by
  rw [tick_fetch_success s now tEnd us ao hg hq]
  have hinv : invocationsOf h
      (TickEvent.fetched s.validator._offset :: general_handler s.update_handlers us) = us := by
    show (if False then [] else []) ++
        invocationsOf h (general_handler s.update_handlers us) = us
    simp [invocationsOf_general_handler s.update_handlers us h hmem hnd]
  refine ⟨hinv, by rw [hinv], fun he => ?_⟩
  subst he
  rfl

/-- Claim C8, witness: cursor 3, handlers {1, 2}, fetch returns ids
[5, 6, 9]: handler 1 is invoked on exactly those three events in that
order; an empty batch produces only the fetch event. -/
theorem c8_handler_fanout_witness :
    invocationsOf 1 (HandlerClient.tick ⟨⟨true, 3⟩, 0, [1, 2], [], 0⟩ 100 200
      (.resp 200 (.wellFormed [⟨5⟩, ⟨6⟩, ⟨9⟩])) (.ok ())).trace = [⟨5⟩, ⟨6⟩, ⟨9⟩] ∧
    (HandlerClient.tick ⟨⟨true, 3⟩, 0, [1, 2], [], 0⟩ 100 200
      (.resp 200 (.wellFormed [])) (.ok ())).trace = [.fetched 3] :=
  ⟨(c8_handler_fanout ⟨⟨true, 3⟩, 0, [1, 2], [], 0⟩ 100 200 [⟨5⟩, ⟨6⟩, ⟨9⟩] 1 (.ok ())
      (by decide) rfl (by decide) (by decide)).1,
   (c8_handler_fanout ⟨⟨true, 3⟩, 0, [1, 2], [], 0⟩ 100 200 [] 1 (.ok ())
      (by decide) rfl (by decide) (by decide)).2.2 rfl⟩

/-- Claim C1: failing input for the throttle gate. With the Dispatch Clock at
0, `min_query_delay` 50000 µs and a non-empty queue, a tick invoked exactly
1 000 000 µs (one second) later has elapsed time far above the configured
delay, yet executes no unit of work at all: the gate reads
`(now - last).microseconds`, the fractional-second component of the
timedelta, which is 0 here, so the tick is throttled and neither dequeues
the waiting action nor fetches. -/
theorem c1_elapsed_second_is_throttled :
    50000 ≤ 1000000 - 0 ∧
    HandlerClient.tick ⟨⟨true, 0⟩, 50000, [], [7], 0⟩ 1000000 1000005 .raised (.ok ()) =
      ⟨⟨⟨true, 0⟩, 50000, [], [7], 0⟩, [], none⟩ := by
  decide

/-- Claim C9: evaluating the constructor semantics at the failing input. Two
`HandlerClient()` instances constructed without passing `update_handlers`
both bind the one default set object (index 0) created when `__init__` was
defined, so registering a handler through the first is observed by the
second, while it observed nothing beforehand; an instance constructed with
an explicitly passed fresh set gets a different object. -/
theorem c9_default_handler_set_is_shared :
    mkDefaultInstance.handlersRef = mkDefaultInstance.handlersRef ∧
    observedHandlers importedWorld mkDefaultInstance = [] ∧
    observedHandlers (registerHandler importedWorld mkDefaultInstance 7) mkDefaultInstance = [7] ∧
    (mkFreshInstance importedWorld).2.handlersRef ≠ mkDefaultInstance.handlersRef := by
  decide

/-- Claim C3, counterexample: with `offset_autoupdate` disabled, a
successful fetch returning the single event with id 5 leaves the cursor at
0 instead of advancing it to 6. -/
theorem c3_counterexample :
    (ValidatorClient.get_updates ⟨false, 0⟩ none (.resp 200 (.wellFormed [⟨5⟩]))).result =
      .ok (some [⟨5⟩]) ∧
    (ValidatorClient.get_updates ⟨false, 0⟩ none (.resp 200 (.wellFormed [⟨5⟩]))).state._offset = 0 ∧
    (0 : Int) ≠ 5 + 1 := by
  decide

/-- Claim C6, counterexample: with the cursor at 100, a fetch whose batch is
the single event with id 5 sets the cursor to 6, which is strictly below
100 — the cursor decreased. -/
theorem c6_counterexample :
    (ValidatorClient.get_updates ⟨true, 100⟩ none (.resp 200 (.wellFormed [⟨5⟩]))).state._offset = 6 ∧
    ¬((100 : Int) ≤ 6) := by
  decide

/-- Claim C7, counterexample: a transport failure makes `get_updates` fail
with the propagated transport exception, not with `ValidationError`. -/
theorem c7_counterexample :
    (ValidatorClient.get_updates ⟨true, 3⟩ none .raised).result = .error .transportError ∧
    PyError.transportError ≠ PyError.validationError := by
  decide

/-- Claim C4, counterexample: with the gate open (delay 0), an empty queue
and a transport failure during the fetch, `tick` raises the transport
exception and leaves the Dispatch Clock at its old value 0 instead of
updating it to now — contradicting both the no-raise and the
unconditional-clock-update halves of the claim. -/
theorem c4_counterexample :
    (HandlerClient.tick ⟨⟨true, 3⟩, 0, [], [], 0⟩ 100 200 .raised (.ok ())).raised =
      some .transportError ∧
    (HandlerClient.tick ⟨⟨true, 3⟩, 0, [], [], 0⟩ 100 200 .raised (.ok ())).state.last_query = 0 ∧
    (0 : Nat) ≠ 200 := by
  decide

/-- Claim C5, counterexample: with delay 50000 µs and the clock at 0, a
first tick at t = 60000 performs a fetch that raises, so the clock is not
updated; a second tick at t = 60010, only 10 µs later, passes the gate
against the stale clock and performs a second fetch — two units of work
executed by two ticks separated by less than the minimum delay. -/
theorem c5_counterexample :
    60010 - 60000 < 50000 ∧
    (HandlerClient.tick ⟨⟨true, 0⟩, 50000, [], [], 0⟩ 60000 60005 .raised (.ok ())).trace ≠ [] ∧
    (HandlerClient.tick
        (HandlerClient.tick ⟨⟨true, 0⟩, 50000, [], [], 0⟩ 60000 60005 .raised (.ok ())).state
        60010 60015 .raised (.ok ())).trace ≠ [] := by
  decide

end TgApi
